import Mathlib

/-!
Shallow embedding of `airshare/sender.py`.

The module serves text or files over HTTP (aiohttp), advertised through
zeroconf multicast DNS, and uploads files to a remote "Upload Receiver".
Pure data and control flow are translated directly; the effectful
collaborators (zeroconf lookup, `os.path.isdir`, `os.path.realpath`,
`os.stat`, HTTP GET, and the helpers `get_zip_file` /
`get_local_ip_address` from `airshare/utils.py`) are an explicit
environment, and the network and discovery side effects of a call are an
explicit event trace.
-/

namespace Airshare

/-- The fixed zeroconf service type: `service = "_airshare._http._tcp.local."`
(used in both `send` and `send_server`). -/
def service : String := "_airshare._http._tcp.local."

/-- `os.path.sep` (POSIX). -/
def pathSep : String := "/"

/-- `path.split(os.path.sep)[-1]`: the last path-separator component. -/
def baseName (path : String) : String :=
  (path.splitOn pathSep).getLastD ""

/-- A resolved zeroconf service record (the fields of `zeroconf.ServiceInfo`
that `sender.py` reads: `info.addresses` and `info.port`). -/
structure ServiceRec where
  addresses : List String
  port : Nat
  deriving DecidableEq, Repr

/-- `"http://" + ip + ":" + str(info.port)` with `ip = info.addresses[0]`. -/
def serviceUrl (info : ServiceRec) : String :=
  "http://" ++ info.addresses.headI ++ ":" ++ toString info.port

/-- The external collaborators of `sender.py`, as one explicit environment.
`getZip` is modelled from the spec: `get_zip_file` lives in
`airshare/utils.py`, which is not under `src/`; per the spec it archives the
given paths into one compressed artifact at a temporary location and returns
`(artifactPath, generated archive displayName)`, so it is kept abstract
here. `localIp` likewise stands for `get_local_ip_address`. -/
structure Env where
  /-- `zeroconf.get_service_info(service, fullName)`. -/
  lookup : String → Option ServiceRec
  /-- `os.path.isdir`. -/
  isDir : String → Bool
  /-- Modelled from the spec: `get_zip_file(paths)` from `airshare/utils.py`
  (missing from `src/`), the ContentPackager archive step returning
  `(artifactPath, displayName)`. -/
  getZip : List String → String × String
  /-- `os.path.realpath`. -/
  realpath : String → String
  /-- `os.stat(path).st_size`. -/
  statSize : String → Nat
  /-- `requests.get(url).text` for the role probe on `/airshare`. -/
  airshareText : String → String
  /-- Modelled from the spec: `get_local_ip_address()` from
  `airshare/utils.py` (missing from `src/`), the advertised IPv4 address. -/
  localIp : String

/-! ### `_file_stream_sender` (GET `/download`)

The handler sets `content-type` (libmagic sniff), `content-length`
(`str(app["file_size"])`), `content-disposition`
(`"attachment; filename={}; size={}".format(file_name, file_size)`), then
streams the file with `chunk = f.read(8192)` / `while chunk: write(chunk);
chunk = f.read(8192)`. A file's bytes are a `List Nat`. -/

/-- The chunk sequence produced by the read loop of `_file_stream_sender`:
read 8192 bytes at a time until a read returns nothing. -/
def readChunks (data : List Nat) : List (List Nat) :=
  if data = [] then []
  else data.take 8192 :: readChunks (data.drop 8192)
termination_by data.length
decreasing_by
  simp only [List.length_drop]
  have hp : 0 < data.length := List.length_pos.mpr (by assumption)
  omega

/-- The response `_file_stream_sender` builds: headers plus streamed body
chunks. `content-type` comes from the libmagic sniff, the two other headers
from `app["file_name"]` and `app["file_size"]`. -/
structure StreamResponse where
  contentType : String
  contentLength : String
  contentDisposition : String
  bodyChunks : List (List Nat)
  deriving DecidableEq, Repr

/-- `_file_stream_sender`, given the sniffed mime type, the session's
`file_name` and `file_size`, and the bytes of the file on disk. -/
def fileStreamSender (mime fileName : String) (fileSize : Nat)
    (data : List Nat) : StreamResponse :=
  { contentType := mime
    contentLength := toString fileSize
    contentDisposition :=
      "attachment; filename=" ++ fileName ++ "; size=" ++ toString fileSize
    bodyChunks := readChunks data }

theorem readChunks_flatten (data : List Nat) :
    (readChunks data).flatten = data := by
  rw [readChunks]
  by_cases h : data = []
  · simp [h]
  · have hp : 0 < data.length := List.length_pos.mpr h
    have hlt : (data.drop 8192).length < data.length := by
      simp only [List.length_drop]; omega
    simp [h, readChunks_flatten (data.drop 8192), List.take_append_drop]
termination_by data.length

theorem readChunks_mem (data : List Nat) :
    ∀ c ∈ readChunks data, c ≠ [] ∧ c.length ≤ 8192 := by
  rw [readChunks]
  by_cases h : data = []
  · simp [h]
  · have hp : 0 < data.length := List.length_pos.mpr h
    have hlt : (data.drop 8192).length < data.length := by
      simp only [List.length_drop]; omega
    intro c hc
    simp only [if_neg h, List.mem_cons] at hc
    rcases hc with hc | hc
    · subst hc
      refine ⟨?_, ?_⟩
      · simp [List.take_eq_nil_iff, h]
      · simp
    · exact readChunks_mem (data.drop 8192) c hc
termination_by data.length

/-! ### The `send` client (upload flow) -/

/-- The `file` argument of `send`: a relative path or a list of paths
(passing `None` to `send` would crash at `len(file)` and is out of scope). -/
inductive FileArg where
  | str (s : String)
  | list (l : List String)
  deriving DecidableEq, Repr

/-- The normalization both `send` and `send_server` perform on `file`:
an empty string or empty list becomes `None`, a non-empty string becomes a
one-element list. -/
def normalizeFile : FileArg → Option (List String)
  | FileArg.str s => if s = "" then Option.none else some [s]
  | FileArg.list l => if l.length = 0 then Option.none else some l

/-- The packaging step of `send` (lines 132-135):
`if compress or len(file) > 1 or os.path.isdir(file[0]): file, name =
get_zip_file(file) else: file, name = file[0],
file[0].split(os.path.sep)[-1]`. -/
def sendPackage (env : Env) (compress : Bool) (files : List String) :
    String × String :=
  if compress || files.length > 1 || env.isDir files.headI then
    env.getZip files
  else
    (files.headI, baseName files.headI)

/-- A network or discovery side effect of `send`, in order of occurrence. -/
inductive Event where
  | discovery (fullName : String)
  | httpGet (url : String)
  | httpPost (url : String) (field : String) (fileName : String)
  deriving DecidableEq, Repr

/-- Whether an event is the multipart POST to `/upload`. -/
def Event.isPost : Event → Bool
  | Event.httpPost _ _ _ => true
  | _ => false

/-- Whether an event is an HTTP request (GET or POST). -/
def Event.isHttp : Event → Bool
  | Event.discovery _ => false
  | _ => true

/-- How a call to `send` ends. `invalidInput` is the raised
`ValueError("The parameter file must be non-empty!")`; the other three are
returns. -/
inductive SendOutcome where
  | notFound
  | invalidInput
  | roleMismatch
  | uploaded (path : String) (fileName : String)
  deriving DecidableEq, Repr

/-- The value `send` returns: 1 on the two printed failures, 0 on success,
none when it raises `ValueError`. -/
def retVal : SendOutcome → Option Nat
  | SendOutcome.notFound => some 1
  | SendOutcome.invalidInput => Option.none
  | SendOutcome.roleMismatch => some 1
  | SendOutcome.uploaded _ _ => some 0

/-- Result of a call to `send`: its outcome and its event trace. -/
structure SendRun where
  outcome : SendOutcome
  trace : List Event
  deriving DecidableEq, Repr

/-- `send(code=..., file=..., compress=...)`. The zeroconf lookup comes
first; only then is `file` normalized and validated, then packaged, then the
role probed with GET `/airshare`, then the artifact POSTed to `/upload`. -/
def send (env : Env) (code : String) (file : FileArg) (compress : Bool) :
    SendRun :=
  let fullName := code ++ service
  match env.lookup fullName with
  | Option.none =>
    { outcome := SendOutcome.notFound, trace := [Event.discovery fullName] }
  | some info =>
    match normalizeFile file with
    | Option.none =>
      { outcome := SendOutcome.invalidInput
        trace := [Event.discovery fullName] }
    | some files =>
      let packed := sendPackage env compress files
      let url := serviceUrl info
      if env.airshareText (url ++ "/airshare") ≠ "Upload Receiver" then
        { outcome := SendOutcome.roleMismatch
          trace := [Event.discovery fullName,
                    Event.httpGet (url ++ "/airshare")] }
      else
        { outcome := SendOutcome.uploaded packed.1 packed.2
          trace := [Event.discovery fullName,
                    Event.httpGet (url ++ "/airshare"),
                    Event.httpPost (url ++ "/upload") "upload_file"
                      packed.2] }

/-! ### The `send_server` host -/

/-- A Python value flowing through `content = text or file` in
`send_server`: either a string or the normalized path list. -/
inductive Content where
  | str (s : String)
  | paths (l : List String)
  deriving DecidableEq, Repr

/-- `text or file` with Python truthiness: `text` counts when it is neither
`None` nor the empty string; otherwise `file` (already normalized to
`None` or a non-empty list) is taken. -/
def pyOrContent (text : Option String) (fileN : Option (List String)) :
    Option Content :=
  match text with
  | some t => if t = "" then fileN.map Content.paths else some (Content.str t)
  | Option.none => fileN.map Content.paths

/-- `name or default` with Python truthiness on strings (`None` and `""`
are falsy). -/
def pyOrStr (name : Option String) (default : String) : String :=
  match name with
  | some n => if n = "" then default else n
  | Option.none => default

/-- The normalization of the optional `file` argument of `send_server`:
applied only when `file is not None`. -/
def normalizeServerFile : Option FileArg → Option (List String)
  | Option.none => Option.none
  | some f => normalizeFile f

/-- The aiohttp request handlers of `sender.py`, one constructor per
`async def`. -/
inductive Handler where
  | textSender
  | downloadPage
  | fileStreamSender
  | isAirshareTextSender
  | isAirshareFileSender
  deriving DecidableEq, Repr

/-- The aiohttp `web.Application` that `send_server` builds: its stored
session values (`app["text"]`, `app["file_path"]`, `app["file_name"]`,
`app["file_size"]`) and its route table in registration order. -/
structure App where
  text : Option Content
  filePath : Option String
  fileName : Option String
  fileSize : Option Nat
  routes : List (String × Handler)
  deriving DecidableEq, Repr

/-- Route dispatch: the handler registered for a path, if any. -/
def findRoute (path : String) : List (String × Handler) → Option Handler
  | [] => Option.none
  | (q, h) :: rest => if path = q then some h else findRoute path rest

/-- The text body a handler responds with on GET, when it responds with
text: `_is_airshare_text_sender` and `_is_airshare_file_sender` return their
literals, `_text_sender` returns `app["text"]` (which must be a string, or
the response construction fails). `_download_page` returns an HTML page and
`_file_stream_sender` a byte stream; their bodies are not needed by any
claim and are left out of this text view. -/
def handlerTextBody (app : App) : Handler → Option String
  | Handler.textSender =>
    match app.text with
    | some (Content.str s) => some s
    | _ => Option.none
  | Handler.isAirshareTextSender => some "Text Sender"
  | Handler.isAirshareFileSender => some "File Sender"
  | Handler.downloadPage => Option.none
  | Handler.fileStreamSender => Option.none

/-- The body of GET `/airshare` on an app, routed through its route table. -/
def airshareBody (app : App) : Option String :=
  (findRoute "/airshare" app.routes).bind (handlerTextBody app)

/-- A discovery, registration, or socket side effect of `send_server`, in
order of occurrence. -/
inductive SEvent where
  | discovery (fullName : String)
  | register (fullName : String) (addresses : List String) (port : Nat)
  | bindPort (port : Nat)
  deriving DecidableEq, Repr

/-- Whether a server event is the `register_service` broadcast. -/
def SEvent.isRegister : SEvent → Bool
  | SEvent.register _ _ _ => true
  | _ => false

/-- Whether a server event is the TCP site binding its port. -/
def SEvent.isBind : SEvent → Bool
  | SEvent.bindPort _ => true
  | _ => false

/-- How `send_server` ends before its `run_forever`: one of its two raised
`ValueError`s, or the serving state with its app. -/
inductive ServerOutcome where
  | nameExists
  | invalidInput
  | started (app : App)
  deriving DecidableEq, Repr

/-- Result of a call to `send_server`: its outcome and its event trace. -/
structure ServerRun where
  outcome : ServerOutcome
  trace : List SEvent
  deriving DecidableEq, Repr

/-- `send_server(code=..., text=..., file=..., compress=..., port=...)`.
Order of the source: zeroconf lookup and collision check; `file`
normalization; `content = text or file` and the emptiness check; packaging
when `text is None and file is not None`; `register_service`; route setup
branching on `text is not None` / `elif file:`; port binding. -/
def sendServer (env : Env) (code : String) (text : Option String)
    (file : Option FileArg) (compress : Bool) (port : Nat) : ServerRun :=
  let fullName := code ++ service
  match env.lookup fullName with
  | some _ =>
    { outcome := ServerOutcome.nameExists
      trace := [SEvent.discovery fullName] }
  | Option.none =>
    let fileN := normalizeServerFile file
    match pyOrContent text fileN with
    | Option.none =>
      { outcome := ServerOutcome.invalidInput
        trace := [SEvent.discovery fullName] }
    | some content0 =>
      let packed : Content × Option String :=
        match text, fileN with
        | Option.none, some files =>
          if compress || files.length > 1 || env.isDir files.headI then
            let z := env.getZip files
            (Content.str z.1, some z.2)
          else
            (Content.str files.headI, Option.none)
        | _, _ => (content0, Option.none)
      let app : App :=
        match text with
        | some _ =>
          { text := some packed.1
            filePath := Option.none
            fileName := Option.none
            fileSize := Option.none
            routes := [("/", Handler.textSender),
                       ("/airshare", Handler.isAirshareTextSender)] }
        | Option.none =>
          match fileN with
          | some _ =>
            let fp := env.realpath
              (match packed.1 with
               | Content.str s => s
               | Content.paths _ => "")
            let fn := pyOrStr packed.2 (baseName fp)
            { text := Option.none
              filePath := some fp
              fileName := some fn
              fileSize := some (env.statSize fp)
              routes := [("/", Handler.downloadPage),
                         ("/airshare", Handler.isAirshareFileSender),
                         ("/download", Handler.fileStreamSender)] }
          | Option.none =>
            { text := Option.none
              filePath := Option.none
              fileName := Option.none
              fileSize := Option.none
              routes := [] }
      { outcome := ServerOutcome.started app
        trace := [SEvent.discovery fullName,
                  SEvent.register fullName [env.localIp] port,
                  SEvent.bindPort port] }

/-! ### `send_server_proc` -/

/-- A `multiprocessing.Process` as `send_server_proc` builds one: the target
closure over the keyword arguments, not yet started. -/
structure PyProcess where
  target : Env → ServerRun
  started : Bool

/-- `send_server_proc(code=..., text=..., file=..., compress=...,
port=...)`: builds the kwargs dict and a `Process(target=send_server,
kwargs=kwargs)` and returns it without starting it; no environment is
touched, so the run has an empty event trace. -/
def sendServerProc (code : String) (text : Option String)
    (file : Option FileArg) (compress : Bool) (port : Nat) :
    PyProcess × List SEvent :=
  ({ target := fun env => sendServer env code text file compress port
     started := false }, [])

/-! ### Concrete environments for witnesses and counterexamples -/

/-- A concrete environment whose zeroconf lookup finds no service. -/
def envAbsent : Env :=
  { lookup := fun _ => Option.none
    isDir := fun _ => false
    getZip := fun _ => ("/tmp/archive.zip", "archive.zip")
    realpath := fun p => p
    statSize := fun _ => 42
    airshareText := fun _ => ""
    localIp := "192.168.1.5" }

/-- A concrete environment that resolves every name and whose `/airshare`
probe answers `"File Sender"` (a sender, not an upload receiver). -/
def envFileSender : Env :=
  { envAbsent with
    lookup := fun _ => some { addresses := ["192.168.1.9"], port := 8000 }
    airshareText := fun _ => "File Sender" }

/-- A concrete environment that resolves every name and whose `/airshare`
probe answers `"Upload Receiver"`. -/
def envReceiver : Env :=
  { envFileSender with airshareText := fun _ => "Upload Receiver" }

/-! ### Claims -/

/-- C1: for a served file of `S` bytes, the `/download` response of
`_file_stream_sender` carries `content-length` equal to `S`, a
`content-disposition` of the form `attachment; filename=<name>;
size=<bytes>`, and body chunks that reassemble byte-for-byte to the file,
read in successive chunks that are non-empty and at most 8192 bytes, so the
8 KiB chunking never truncates, duplicates, or reorders bytes. The
hypothesis says the session's `file_size` (taken by `os.stat` at server
start) matches the bytes on disk, i.e. the file is unchanged. -/
theorem c1_download_byte_exact (mime fileName : String) (fileSize : Nat)
    (data : List Nat) (h : fileSize = data.length) :
    (fileStreamSender mime fileName fileSize data).contentLength =
      toString data.length ∧
    (fileStreamSender mime fileName fileSize data).contentDisposition =
      "attachment; filename=" ++ fileName ++ "; size=" ++
        toString data.length ∧
    (fileStreamSender mime fileName fileSize data).bodyChunks.flatten =
      data ∧
    ∀ c ∈ (fileStreamSender mime fileName fileSize data).bodyChunks,
      c ≠ [] ∧ c.length ≤ 8192 := by
  subst h
  exact ⟨rfl, rfl, readChunks_flatten data, readChunks_mem data⟩

/-- Witness for C1 at a concrete three-byte file. -/
theorem c1_download_byte_exact_witness :
    3 = ([7, 8, 9] : List Nat).length ∧
    (fileStreamSender "text/plain" "a.txt" 3 [7, 8, 9]).bodyChunks.flatten =
      [7, 8, 9] ∧
    (fileStreamSender "text/plain" "a.txt" 3 [7, 8, 9]).contentLength =
      toString ([7, 8, 9] : List Nat).length :=
  ⟨rfl,
   (c1_download_byte_exact "text/plain" "a.txt" 3 [7, 8, 9] rfl).2.2.1,
   (c1_download_byte_exact "text/plain" "a.txt" 3 [7, 8, 9] rfl).1⟩

/-- C5: when the zeroconf lookup of the code returns no record, `send`
returns 1 reporting the absence (outcome `notFound`, not a raised error),
and its trace holds no HTTP request at all. -/
theorem c5_lookup_absent (env : Env) (code : String) (file : FileArg)
    (compress : Bool) (h : env.lookup (code ++ service) = Option.none) :
    (send env code file compress).outcome = SendOutcome.notFound ∧
    retVal (send env code file compress).outcome = some 1 ∧
    (send env code file compress).trace =
      [Event.discovery (code ++ service)] ∧
    ∀ e ∈ (send env code file compress).trace, e.isHttp = false := by
  have hrun : send env code file compress =
      { outcome := SendOutcome.notFound
        trace := [Event.discovery (code ++ service)] } := by
    simp only [send, h]
  rw [hrun]
  refine ⟨rfl, rfl, rfl, ?_⟩
  rintro e he
  simp only [List.mem_cons, List.not_mem_nil, or_false] at he
  subst he
  rfl

/-- Witness for C5 at a concrete absent-service environment. -/
theorem c5_lookup_absent_witness :
    envAbsent.lookup ("files" ++ service) = Option.none ∧
    (send envAbsent "files" (FileArg.str "a.txt") false).outcome =
      SendOutcome.notFound :=
  ⟨rfl,
   (c5_lookup_absent envAbsent "files" (FileArg.str "a.txt") false rfl).1⟩

/-- C2: when the lookup resolves, the input is non-empty, and the resolved
service's `/airshare` probe does not answer exactly `"Upload Receiver"`,
`send` fails with the role-mismatch outcome, returns 1, and performs no
POST to `/upload`. -/
theorem c2_role_mismatch_no_post (env : Env) (code : String) (file : FileArg)
    (compress : Bool) (info : ServiceRec)
    (hl : env.lookup (code ++ service) = some info)
    (hf : (normalizeFile file).isSome = true)
    (hr : env.airshareText (serviceUrl info ++ "/airshare") ≠
      "Upload Receiver") :
    (send env code file compress).outcome = SendOutcome.roleMismatch ∧
    retVal (send env code file compress).outcome = some 1 ∧
    ∀ e ∈ (send env code file compress).trace, e.isPost = false := by
  obtain ⟨files, hf2⟩ := Option.isSome_iff_exists.mp hf
  have hrun : send env code file compress =
      { outcome := SendOutcome.roleMismatch
        trace := [Event.discovery (code ++ service),
                  Event.httpGet (serviceUrl info ++ "/airshare")] } := by
    simp only [send, hl, hf2]
    rw [if_pos hr]
  rw [hrun]
  refine ⟨rfl, rfl, ?_⟩
  rintro e he
  simp only [List.mem_cons, List.not_mem_nil, or_false] at he
  rcases he with rfl | rfl <;> rfl

/-- Witness for C2 against a concrete resolved `"File Sender"` service. -/
theorem c2_role_mismatch_no_post_witness :
    envFileSender.lookup ("code" ++ service) =
      some { addresses := ["192.168.1.9"], port := 8000 } ∧
    (normalizeFile (FileArg.str "a.txt")).isSome = true ∧
    envFileSender.airshareText
      (serviceUrl { addresses := ["192.168.1.9"], port := 8000 } ++
        "/airshare") ≠ "Upload Receiver" ∧
    (send envFileSender "code" (FileArg.str "a.txt") false).outcome =
      SendOutcome.roleMismatch :=
  ⟨rfl, by decide, by decide,
   (c2_role_mismatch_no_post envFileSender "code" (FileArg.str "a.txt")
     false { addresses := ["192.168.1.9"], port := 8000 }
     rfl (by decide) (by decide)).1⟩

/-- C4 (counterexample): calling `send` with an empty path list does NOT
guarantee an invalid-input failure with no discovery call. With an absent
service the call performs the discovery lookup and returns the not-found
failure, never reaching input validation; the discovery event is in the
trace. -/
theorem c4_counterexample :
    (send envAbsent "alpha" (FileArg.list []) false).outcome =
      SendOutcome.notFound ∧
    (send envAbsent "alpha" (FileArg.list []) false).outcome ≠
      SendOutcome.invalidInput ∧
    Event.discovery ("alpha" ++ service) ∈
      (send envAbsent "alpha" (FileArg.list []) false).trace := by
  refine ⟨rfl, by decide, ?_⟩
  simp [send, envAbsent]

/-- C4 (amended): on an empty path list (or empty-string path), `send`
always performs the discovery lookup first (it is the head of the trace);
no HTTP request is ever made; when the lookup resolves, the call then fails
with the invalid-input `ValueError`; when it does not, the call fails with
the not-found result instead. -/
theorem c4_empty_input (env : Env) (code : String) (file : FileArg)
    (compress : Bool) (hf : normalizeFile file = Option.none) :
    (send env code file compress).trace.head? =
      some (Event.discovery (code ++ service)) ∧
    (∀ e ∈ (send env code file compress).trace, e.isHttp = false) ∧
    ((env.lookup (code ++ service)).isSome = true →
      (send env code file compress).outcome = SendOutcome.invalidInput) ∧
    ((env.lookup (code ++ service)).isNone = true →
      (send env code file compress).outcome = SendOutcome.notFound) := by
  cases hl : env.lookup (code ++ service) with
  | none =>
    have hrun : send env code file compress =
        { outcome := SendOutcome.notFound
          trace := [Event.discovery (code ++ service)] } := by
      simp only [send, hl]
    rw [hrun]
    refine ⟨rfl, ?_, by simp [hl], fun _ => rfl⟩
    rintro e he
    simp only [List.mem_cons, List.not_mem_nil, or_false] at he
    subst he
    rfl
  | some info =>
    have hrun : send env code file compress =
        { outcome := SendOutcome.invalidInput
          trace := [Event.discovery (code ++ service)] } := by
      simp only [send, hl, hf]
    rw [hrun]
    refine ⟨rfl, ?_, fun _ => rfl, by simp [hl]⟩
    rintro e he
    simp only [List.mem_cons, List.not_mem_nil, or_false] at he
    subst he
    rfl

/-- Witness for the amended C4: an empty list against a resolved service
yields the invalid-input failure, after the discovery event. -/
theorem c4_empty_input_witness :
    normalizeFile (FileArg.list []) = Option.none ∧
    (send envFileSender "alpha" (FileArg.list []) false).trace.head? =
      some (Event.discovery ("alpha" ++ service)) :=
  ⟨rfl,
   (c4_empty_input envFileSender "alpha" (FileArg.list []) false rfl).1⟩

/-- C3: when a live record with the same full name already resolves,
`send_server` fails with the collision `ValueError`; its trace is the
discovery lookup alone, so no new record is registered (nothing is
overwritten) and the listening port is never bound. -/
theorem c3_name_collision (env : Env) (code : String) (text : Option String)
    (file : Option FileArg) (compress : Bool) (port : Nat)
    (info : ServiceRec) (h : env.lookup (code ++ service) = some info) :
    (sendServer env code text file compress port).outcome =
      ServerOutcome.nameExists ∧
    (sendServer env code text file compress port).trace =
      [SEvent.discovery (code ++ service)] ∧
    ∀ e ∈ (sendServer env code text file compress port).trace,
      e.isRegister = false ∧ e.isBind = false := by
  have hrun : sendServer env code text file compress port =
      { outcome := ServerOutcome.nameExists
        trace := [SEvent.discovery (code ++ service)] } := by
    simp only [sendServer, h]
  rw [hrun]
  refine ⟨rfl, rfl, ?_⟩
  rintro e he
  simp only [List.mem_cons, List.not_mem_nil, or_false] at he
  subst he
  exact ⟨rfl, rfl⟩

/-- Witness for C3 against a concrete environment with a live record. -/
theorem c3_name_collision_witness :
    envFileSender.lookup ("busy" ++ service) =
      some { addresses := ["192.168.1.9"], port := 8000 } ∧
    (sendServer envFileSender "busy" (some "hi") Option.none false
      80).outcome = ServerOutcome.nameExists :=
  ⟨rfl,
   (c3_name_collision envFileSender "busy" (some "hi") Option.none false 80
     { addresses := ["192.168.1.9"], port := 8000 } rfl).1⟩

/-- C6: the packaging step of `send`: when compression is forced, or more
than one path is given, or the single path is a directory, the artifact and
display name come from the zip helper; otherwise the artifact is the single
file unchanged and the display name is its base name (the last
path-separator component). -/
theorem c6_packaging_policy (env : Env) (compress : Bool)
    (files : List String) (h : files ≠ []) :
    ((compress = true ∨ 1 < files.length ∨ env.isDir files.headI = true) →
      sendPackage env compress files = env.getZip files) ∧
    (compress = false ∧ files.length ≤ 1 ∧ env.isDir files.headI = false →
      sendPackage env compress files =
        (files.headI, baseName files.headI)) := by
  constructor
  · rintro (hc | hc | hc) <;> simp [sendPackage, hc]
  · rintro ⟨h1, h2, h3⟩
    have hn : ¬(1 < files.length) := by omega
    simp [sendPackage, h1, h3, hn]

/-- Witness for C6: forced compression on one regular file packages through
the zip helper. -/
theorem c6_packaging_policy_witness :
    (["a.txt"] : List String) ≠ [] ∧
    ((true = true ∨ 1 < (["a.txt"] : List String).length ∨
        envAbsent.isDir (["a.txt"] : List String).headI = true) →
      sendPackage envAbsent true ["a.txt"] = envAbsent.getZip ["a.txt"]) :=
  ⟨by decide, (c6_packaging_policy envAbsent true ["a.txt"] (by decide)).1⟩

/-- C7: on every started server, GET `/airshare` answers exactly the
literal `"Text Sender"` when the server was started in the text-sender role
(`text is not None`) and exactly `"File Sender"` when started in the
file-sender role (`text is None`, so the file branch set the routes). -/
theorem c7_airshare_role_literal (env : Env) (code : String)
    (text : Option String) (file : Option FileArg) (compress : Bool)
    (port : Nat) (app : App)
    (h : (sendServer env code text file compress port).outcome =
      ServerOutcome.started app) :
    (text ≠ Option.none → airshareBody app = some "Text Sender") ∧
    (text = Option.none → airshareBody app = some "File Sender") := by
  cases hl : env.lookup (code ++ service) with
  | some info => simp [sendServer, hl] at h
  | none =>
    cases hfn : normalizeServerFile file with
    | none =>
      cases text with
      | none => simp [sendServer, hl, hfn, pyOrContent] at h
      | some t =>
        by_cases ht : t = ""
        · subst ht
          simp [sendServer, hl, hfn, pyOrContent] at h
        · simp only [sendServer, hl, hfn, pyOrContent, if_neg ht,
            ServerOutcome.started.injEq] at h
          subst h
          exact ⟨fun _ => rfl, fun hq => absurd hq (by simp)⟩
    | some fs =>
      cases text with
      | none =>
        simp [sendServer, hl, hfn, pyOrContent] at h
        subst h
        exact ⟨fun hq => absurd rfl hq, fun _ => rfl⟩
      | some t =>
        by_cases ht : t = ""
        · subst ht
          simp [sendServer, hl, hfn, pyOrContent] at h
          subst h
          exact ⟨fun _ => rfl, fun hq => absurd hq (by simp)⟩
        · simp only [sendServer, hl, hfn, pyOrContent, if_neg ht,
            ServerOutcome.started.injEq] at h
          subst h
          exact ⟨fun _ => rfl, fun hq => absurd hq (by simp)⟩

/-- Witness for C7 at a concrete started text server. -/
theorem c7_airshare_role_literal_witness :
    (sendServer envAbsent "abc" (some "hello") Option.none false 80).outcome
      = ServerOutcome.started
          { text := some (Content.str "hello")
            filePath := Option.none
            fileName := Option.none
            fileSize := Option.none
            routes := [("/", Handler.textSender),
                       ("/airshare", Handler.isAirshareTextSender)] } ∧
    airshareBody
        { text := some (Content.str "hello")
          filePath := Option.none
          fileName := Option.none
          fileSize := Option.none
          routes := [("/", Handler.textSender),
                     ("/airshare", Handler.isAirshareTextSender)] } =
      some "Text Sender" :=
  ⟨rfl,
   (c7_airshare_role_literal envAbsent "abc" (some "hello") Option.none
     false 80 _ rfl).1 (by simp)⟩

/-- C8: whenever `send_server` binds its listening port, the zeroconf
collision lookup found no live record and the trace is exactly discovery,
then registration, then the bind: registration completes strictly before
the server starts listening, so no request is ever served under a name the
discovery layer would deny. -/
theorem c8_register_before_bind (env : Env) (code : String)
    (text : Option String) (file : Option FileArg) (compress : Bool)
    (port : Nat)
    (h : SEvent.bindPort port ∈
      (sendServer env code text file compress port).trace) :
    env.lookup (code ++ service) = Option.none ∧
    (sendServer env code text file compress port).trace =
      [SEvent.discovery (code ++ service),
       SEvent.register (code ++ service) [env.localIp] port,
       SEvent.bindPort port] := by
  cases hl : env.lookup (code ++ service) with
  | some info =>
    refine absurd h ?_
    simp [sendServer, hl]
  | none =>
    cases hc : pyOrContent text (normalizeServerFile file) with
    | none =>
      refine absurd h ?_
      simp [sendServer, hl, hc]
    | some content0 =>
      refine ⟨rfl, ?_⟩
      simp only [sendServer, hl, hc]

/-- Witness for C8 at a concrete started text server. -/
theorem c8_register_before_bind_witness :
    SEvent.bindPort 80 ∈
      (sendServer envAbsent "abc" (some "hi") Option.none false 80).trace ∧
    (sendServer envAbsent "abc" (some "hi") Option.none false 80).trace =
      [SEvent.discovery ("abc" ++ service),
       SEvent.register ("abc" ++ service) [envAbsent.localIp] 80,
       SEvent.bindPort 80] :=
  ⟨by decide,
   (c8_register_before_bind envAbsent "abc" (some "hi") Option.none false 80
     (by decide)).2⟩

/-- C9: when `send_server` is started with a non-empty `text` and a
non-empty `file`, the started app is exclusively a text sender: its route
table is exactly `/` to the text handler and `/airshare` to the
`"Text Sender"` literal, the text payload is the given string, no
`/download` route exists, and the whole run equals the run with no `file`
argument at all. -/
theorem c9_text_shadows_file (env : Env) (code t : String)
    (file : Option FileArg) (compress : Bool) (port : Nat) (app : App)
    (fs : List String) (ht : t ≠ "")
    (hf : normalizeServerFile file = some fs)
    (h : (sendServer env code (some t) file compress port).outcome =
      ServerOutcome.started app) :
    app.routes = [("/", Handler.textSender),
                  ("/airshare", Handler.isAirshareTextSender)] ∧
    app.text = some (Content.str t) ∧
    findRoute "/download" app.routes = Option.none ∧
    airshareBody app = some "Text Sender" ∧
    sendServer env code (some t) file compress port =
      sendServer env code (some t) Option.none compress port := by
  cases hl : env.lookup (code ++ service) with
  | some info => simp [sendServer, hl] at h
  | none =>
    simp only [sendServer, hl, hf, pyOrContent, if_neg ht,
      ServerOutcome.started.injEq] at h
    subst h
    refine ⟨rfl, rfl, rfl, rfl, ?_⟩
    simp only [sendServer, hl, hf, pyOrContent, if_neg ht,
      normalizeServerFile]

/-- Witness for C9 at a concrete call carrying both text and a file. -/
theorem c9_text_shadows_file_witness :
    "hello" ≠ "" ∧
    normalizeServerFile (some (FileArg.str "a.txt")) = some ["a.txt"] ∧
    (sendServer envAbsent "abc" (some "hello")
        (some (FileArg.str "a.txt")) false 80).outcome =
      ServerOutcome.started
        { text := some (Content.str "hello")
          filePath := Option.none
          fileName := Option.none
          fileSize := Option.none
          routes := [("/", Handler.textSender),
                     ("/airshare", Handler.isAirshareTextSender)] } ∧
    sendServer envAbsent "abc" (some "hello") (some (FileArg.str "a.txt"))
        false 80 =
      sendServer envAbsent "abc" (some "hello") Option.none false 80 :=
  ⟨by decide, rfl, rfl,
   (c9_text_shadows_file envAbsent "abc" "hello"
     (some (FileArg.str "a.txt")) false 80 _ ["a.txt"] (by decide) rfl
     rfl).2.2.2.2⟩

/-- C10: `send_server_proc` only constructs the process object: it is not
started, its target is exactly `send_server` closed over the given keyword
arguments, and no discovery, registration, or binding event is emitted,
whatever the arguments. -/
theorem c10_proc_constructs_only (code : String) (text : Option String)
    (file : Option FileArg) (compress : Bool) (port : Nat) :
    (sendServerProc code text file compress port).2 = [] ∧
    (sendServerProc code text file compress port).1.started = false ∧
    (sendServerProc code text file compress port).1.target =
      fun env => sendServer env code text file compress port :=
  ⟨rfl, rfl, rfl⟩

end Airshare
